import Mathlib

/-!
Shallow embedding of the two agent tools of this repository:
  src/agents/scraping_bee/agent.py  (`scrape_url`)
  src/agents/repo_cloner/agent.py   (`clone_repo`)
External effects (environment lookup, HTTP, subprocess, filesystem) are
modelled as explicit oracle inputs; each tool returns its value together
with a trace of the effects it performed.
-/

namespace AdkTools

/-- Python truthiness of an `Optional[str]`: `None` and `""` are falsy. -/
def truthyStr : Option String → Bool
  | none => false
  | some s => !(s == "")

/-- Python truthiness of an `Optional[int]`: `None` and `0` are falsy. -/
def truthyInt : Option Int → Bool
  | none => false
  | some n => !(n == 0)

/-- `needle` occurs at the start of `hay` (element lists). -/
def listStarts [BEq α] : List α → List α → Bool
  | [], _ => true
  | _ :: _, [] => false
  | a :: as, b :: bs => a == b && listStarts as bs

/-- `needle` occurs contiguously somewhere in `hay` (Python `needle in hay`). -/
def listHasSub [BEq α] (needle : List α) : List α → Bool
  | [] => needle.isEmpty
  | b :: bs => listStarts needle (b :: bs) || listHasSub needle bs

/-- Python substring test `needle in hay` on strings. -/
def strHasSub (hay needle : String) : Bool :=
  listHasSub needle.data hay.data

/-- `needle` occurs at the start of string `s`. -/
def strStarts (s needle : String) : Bool :=
  listStarts needle.data s.data

/-- Python `s[:n]`: the first `n` characters (code points) of `s`. -/
def pySlice (n : Nat) (s : String) : String :=
  String.mk (s.data.take n)

/-- Python whitespace as stripped by `str.strip()`. -/
def isPyWs (c : Char) : Bool :=
  c == ' ' || c == '\t' || c == '\n' || c == '\r' || c == '\x0b' || c == '\x0c'

/-- Python `s.strip()`: remove leading and trailing whitespace. -/
def pyStrip (s : String) : String :=
  String.mk (((s.data.dropWhile isPyWs).reverse.dropWhile isPyWs).reverse)

/-- Split characters at `'\n'`, accumulating the current line (reversed). -/
def splitNlAux (cur : List Char) : List Char → List String
  | [] => [String.mk cur.reverse]
  | c :: cs =>
      if c == '\n' then String.mk cur.reverse :: splitNlAux [] cs
      else splitNlAux (c :: cur) cs

/-- Split a string into its `'\n'`-separated pieces. -/
def splitNl (s : String) : List String :=
  splitNlAux [] s.data

/-- Join strings with `'\n'` between them (Python `'\n'.join`). -/
def joinNl : List String → String
  | [] => ""
  | s :: rest => rest.foldl (fun acc x => acc ++ "\n" ++ x) s

/- ---------------------------------------------------------------------
   src/agents/scraping_bee/agent.py
   --------------------------------------------------------------------- -/

/-- Outcome of the single `requests.get` call in `scrape_url`.  The
`response` constructor also carries the two outputs of the HTML-parsing
library (out of scope of this repository) on the response body: the text
extracted by `soup.get_text(separator='\n', strip=True)` after `<script>`
and `<style>` elements were removed, and the stripped text of the
`<title>` element when one exists. -/
inductive HttpOutcome where
  | timeout
  | requestError (msg : String)
  | otherError (msg : String)
  | response (ok : Bool) (status : Nat) (contentType : String) (body : String)
      (soupText : String) (soupTitle : Option String)
deriving Repr, DecidableEq

/-- Return value of the embedded `scrape_url` plus its effect trace:
the string it returns and how many HTTP requests it issued. -/
structure ScrapeOut where
  output : String
  httpRequests : Nat
deriving Repr, DecidableEq

/-- `MAX_CHARS` from `scrape_url`. -/
def MAX_CHARS : Nat := 25000

/-- The truncation marker appended by `scrape_url`. -/
def truncMarker : String := "\n\n... (content truncated)"

/-- `lines = [line.strip() for line in text.splitlines() if line.strip()]`
followed by `'\n'.join(lines)`.  Line boundaries are modelled as `'\n'`
(the other Python line boundaries do not change the blank-filtered
result). -/
def cleanLines (s : String) : String :=
  joinNl (((splitNl s).map pyStrip).filter (fun l => !(l == "")))

/-- The truncation step of `scrape_url`:
`text[:MAX_CHARS] + "\n\n... (content truncated)"` when over the cap. -/
def truncateText (s : String) : String :=
  if s.length > MAX_CHARS then pySlice MAX_CHARS s ++ truncMarker else s

/-- Embedding of `scrape_url` (src/agents/scraping_bee/agent.py).
`apiKey` is `os.environ.get('SCRAPINGBEE_API_KEY')`; `http` is the
outcome of the single `requests.get` call (query parameters, including
the `render_js`-dependent upstream timeout, do not affect the shape of
the result and are not traced). -/
def scrape_url (url : String) (renderJs : Bool) (apiKey : Option String)
    (http : HttpOutcome) : ScrapeOut :=
  if !(truthyStr apiKey) then
    ⟨"Error: SCRAPINGBEE_API_KEY environment variable must be set", 0⟩
  else
    match http with
    | .timeout => ⟨"Error: Request to ScrapingBee timed out after 20 seconds", 1⟩
    | .requestError msg =>
        ⟨"Error: Failed to connect to ScrapingBee API: " ++ msg, 1⟩
    | .otherError msg => ⟨"Error: " ++ msg, 1⟩
    | .response ok status contentType body soupText soupTitle =>
        if !ok then
          ⟨"Error: ScrapingBee API failed with status " ++ toString status
             ++ ": " ++ body, 1⟩
        else if strStarts contentType "text" || strHasSub contentType "json" then
          let text1 := truncateText (cleanLines soupText)
          let text2 :=
            match soupTitle with
            | some t => "# " ++ t ++ "\n\nSource: " ++ url ++ "\n\n" ++ text1
            | none => "Source: " ++ url ++ "\n\n" ++ text1
          ⟨text2, 1⟩
        else
          ⟨"Error: Cannot process binary response from URL", 1⟩

/- ---------------------------------------------------------------------
   src/agents/repo_cloner/agent.py
   --------------------------------------------------------------------- -/

/-- Characters up to the first `/`, `?` or `#` (netloc delimiters). -/
def takeUntilDelim : List Char → List Char
  | [] => []
  | c :: cs => if c == '/' || c == '?' || c == '#' then [] else c :: takeUntilDelim cs

/-- Characters after the first `//`, when present. -/
def afterDoubleSlash : List Char → Option (List Char)
  | [] => none
  | '/' :: '/' :: cs => some cs
  | _ :: cs => afterDoubleSlash cs

/-- `urlparse(url).netloc` as used by `clone_repo` on `scheme://host/path`
URLs: the text between the first `//` and the next `/`, `?` or `#`
(empty when the URL has no `//`). -/
def netloc (url : String) : String :=
  match afterDoubleSlash url.data with
  | some rest => String.mk (takeUntilDelim rest)
  | none => ""

/-- Outcome of the `subprocess.run(cmd, env=env, check=True, ...)` call:
exit 0; a `subprocess.CalledProcessError` carrying captured `stderr`
(a string, possibly empty, since `capture_output=True, text=True`) and
its `str(e)` text; or any other exception raised by `subprocess.run`. -/
inductive SubprocOutcome where
  | exitOk
  | calledProcessError (stderr : String) (excText : String)
  | otherError (msg : String)
deriving Repr, DecidableEq

/-- Whether the subprocess outcome is an exception other than
`CalledProcessError`. -/
def SubprocOutcome.isOther : SubprocOutcome → Bool
  | .otherError _ => true
  | _ => false

/-- Oracle for the external effects of one `clone_repo` call. -/
structure CloneEnv where
  /-- `shutil.which("git") is not None`. -/
  gitOnPath : Bool
  /-- Whether `dest_path.parent.mkdir(parents=True, exist_ok=True)`
  succeeds; `false` means it raises `OSError`. -/
  mkdirOk : Bool
  /-- `Path(dest_dir).expanduser().resolve()` when `dest_dir` is given. -/
  resolvedDest : String
  /-- Name of the fresh `tempfile.TemporaryDirectory(prefix="adk_clone_")`
  used when `dest_dir` is absent. -/
  tmpDirName : String
  /-- `tempfile.gettempdir()`. -/
  tmpRoot : String
  /-- `os.urandom(6).hex()`. -/
  credHex : String
  /-- Outcome of the `subprocess.run` call. -/
  subproc : SubprocOutcome
  /-- Whether `cred_file.unlink(missing_ok=True)` succeeds; `false`
  means it raises `OSError` (which the code swallows). -/
  unlinkOk : Bool
deriving Repr, DecidableEq

/-- A Python exception escaping `clone_repo`. -/
inductive PyError where
  | osError (msg : String)
  | otherError (msg : String)
deriving Repr, DecidableEq

/-- `clone_repo`'s returned dict: `cloned_path = none` models the key
being absent. -/
structure CloneResult where
  success : Bool
  message : String
  cloned_path : Option String
deriving Repr, DecidableEq

/-- Effect events of one `clone_repo` call, in order. -/
inductive CloneEvent where
  | credFileCreated
  | subprocStarted
  | credFileUnlinked
deriving Repr, DecidableEq

/-- Effect trace of one `clone_repo` call. -/
structure CloneTrace where
  /-- How many credential files the call wrote. -/
  credFilesCreated : Nat
  /-- The username put in the credential line, when one was written. -/
  credUsername : Option String
  /-- The full credential line written, when one was. -/
  credFileContent : Option String
  /-- Whether a credential file is still on disk after the call returns. -/
  credFileExistsAfter : Bool
  /-- Whether `cred_file.unlink` was attempted. -/
  unlinkAttempted : Bool
  /-- Variables `env.update(...)` added beyond `os.environ.copy()`. -/
  envExtra : List (String × String)
  /-- The constructed `git` command, when construction was reached. -/
  cmd : Option (List String)
  /-- The ordered effect events. -/
  events : List CloneEvent
deriving Repr, DecidableEq

/-- Trace of a call that performed no effects. -/
def emptyTrace : CloneTrace := ⟨0, none, none, false, false, [], none, []⟩

/-- Embedding of `clone_repo` (src/agents/repo_cloner/agent.py).
Returns the structured result (or the escaping exception) together with
the effect trace.  `Path.write_text` and `os.chmod` on the just-created
credential file are modelled as succeeding. -/
def clone_repo (repo_url : String) (branch : Option String) (depth : Option Int)
    (dest_dir : Option String) (token : Option String)
    (username_hint : Option String) (env : CloneEnv) :
    Except PyError CloneResult × CloneTrace :=
  if !env.gitOnPath then
    (.ok ⟨false, "`git` executable not found in PATH.", none⟩, emptyTrace)
  else
    let dest_path :=
      if truthyStr dest_dir then env.resolvedDest else env.tmpDirName ++ "/repo"
    if !env.mkdirOk then
      (.error (.osError ("could not create parent directory of " ++ dest_path)),
       emptyTrace)
    else
      -- credential handling (`if token:`): username, cred line, cred file path
      let credInfo : Option (String × String × String) :=
        if truthyStr token then
          let username :=
            if truthyStr username_hint then username_hint.getD ""
            else if strHasSub repo_url "github.com" then "x-access-token"
            else "oauth2"
          let host := netloc repo_url
          let credPath := env.tmpRoot ++ "/git-cred-" ++ env.credHex
          some (username,
            "https://" ++ username ++ ":" ++ token.getD "" ++ "@" ++ host ++ "\n",
            credPath)
        else none
      let envExtra : List (String × String) :=
        match credInfo with
        | some (_, _, p) =>
            [("GIT_TERMINAL_PROMPT", "0"), ("GIT_ASKPASS", "echo"),
             ("GIT_CREDENTIAL_HELPER", "store --file=" ++ p)]
        | none => []
      let cmd := ["git", "clone"]
        ++ (if truthyStr branch then ["--branch", branch.getD ""] else [])
        ++ (if truthyInt depth then
              ["--depth", toString (depth.getD 0), "--shallow-submodules",
               "--no-tags"]
            else [])
        ++ [repo_url, dest_path]
      let created := credInfo.isSome
      let result : Except PyError CloneResult :=
        match env.subproc with
        | .exitOk =>
            .ok ⟨true, "Repository cloned to " ++ dest_path, some dest_path⟩
        | .calledProcessError stderr excText =>
            .ok ⟨false,
              "git clone failed: "
                ++ (if stderr == "" then excText else pyStrip stderr), none⟩
        | .otherError msg => .error (.otherError msg)
      (result,
       { credFilesCreated := if created then 1 else 0
         credUsername := credInfo.map (·.1)
         credFileContent := credInfo.map (·.2.1)
         credFileExistsAfter := created && !env.unlinkOk
         unlinkAttempted := created
         envExtra := envExtra
         cmd := some cmd
         events :=
           (if created then [CloneEvent.credFileCreated] else [])
             ++ [CloneEvent.subprocStarted]
             ++ (if created then [CloneEvent.credFileUnlinked] else []) })

/-- Whether an `Except` value is a structured result rather than an
escaping exception. -/
def exceptIsOk : Except PyError CloneResult → Bool
  | .ok _ => true
  | .error _ => false

instance : DecidableEq (Except PyError CloneResult) := fun a b =>
  match a, b with
  | .ok x, .ok y => decidable_of_iff (x = y) (by simp)
  | .error x, .error y => decidable_of_iff (x = y) (by simp)
  | .ok _, .error _ => isFalse (by simp)
  | .error _, .ok _ => isFalse (by simp)

/- ---------------------------------------------------------------------
   Helper lemmas
   --------------------------------------------------------------------- -/

/-- A list starts with itself followed by anything. -/
theorem listStarts_append [BEq α] [LawfulBEq α] (l b : List α) :
    listStarts l (l ++ b) = true := by
  induction l with
  | nil => rfl
  | cons a as ih => simp [listStarts, ih]

/-- A sublist match at the head gives a sublist match. -/
theorem listHasSub_of_starts [BEq α] (n h : List α)
    (hs : listStarts n h = true) : listHasSub n h = true := by
  cases h with
  | nil => cases n with
    | nil => rfl
    | cons a as => simp [listStarts] at hs
  | cons b bs => simp [listHasSub, hs]

/-- A contiguous block inside an append is found by `listHasSub`. -/
theorem listHasSub_append [BEq α] [LawfulBEq α] (pre needle post : List α) :
    listHasSub needle (pre ++ (needle ++ post)) = true := by
  induction pre with
  | nil =>
      exact listHasSub_of_starts needle (needle ++ post)
        (listStarts_append needle post)
  | cons p ps ih => simp [listHasSub, ih]

/-- `pySlice` returns at most `n` characters. -/
theorem pySlice_length_le (n : Nat) (s : String) :
    (pySlice n s).length ≤ n := by
  show (s.data.take n).length ≤ n
  simp [List.length_take]

/-- The truncation step caps the text at `MAX_CHARS` plus the marker. -/
theorem truncateText_length_le (s : String) :
    (truncateText s).length ≤ MAX_CHARS + truncMarker.length := by
  unfold truncateText
  split
  · rw [String.length_append]
    exact Nat.add_le_add_right (pySlice_length_le MAX_CHARS s) _
  · next h =>
      have : s.length ≤ MAX_CHARS := Nat.le_of_not_lt h
      exact Nat.le_trans this (Nat.le_add_right _ _)

/- ---------------------------------------------------------------------
   Claim theorems
   --------------------------------------------------------------------- -/

/-- C7: when the ScrapingBee API key is not configured in the environment,
`scrape_url` returns the explicit error string and performs zero HTTP
requests, whatever the URL, render flag, or (hypothetical) network
outcome. -/
theorem C7_missing_api_key (url : String) (renderJs : Bool) (http : HttpOutcome) :
    scrape_url url renderJs none http
      = ⟨"Error: SCRAPINGBEE_API_KEY environment variable must be set", 0⟩ := rfl

/-- C10: a `clone_repo` call with `depth = 0` behaves exactly like a call
with `depth` absent — in particular the constructed clone command carries
no shallow-clone options — because the guard tests Python truthiness and
`0` is falsy. -/
theorem C10_depth_zero (repo_url : String) (branch dest_dir token username_hint :
    Option String) (env : CloneEnv) :
    clone_repo repo_url branch (some 0) dest_dir token username_hint env
      = clone_repo repo_url branch none dest_dir token username_hint env := rfl

/-- C5: when the clone subprocess exits non-zero, `clone_repo` returns a
dict with `success = false`, no `cloned_path` key, and the message
`"git clone failed: "` followed by the stripped stderr when stderr is
non-empty, else the exception text. -/
theorem C5_subprocess_failure (repo_url : String) (branch : Option String)
    (depth : Option Int) (dest_dir token username_hint : Option String)
    (env : CloneEnv) (stderr excText : String)
    (hgit : env.gitOnPath = true) (hmk : env.mkdirOk = true)
    (hsub : env.subproc = .calledProcessError stderr excText) :
    (clone_repo repo_url branch depth dest_dir token
        username_hint env).1
      = .ok ⟨false,
          "git clone failed: "
            ++ (if stderr == "" then excText else pyStrip stderr), none⟩ := by
  unfold clone_repo
  simp [hgit, hmk, hsub]

/-- C5 witness: the failure shape at a concrete call. -/
theorem C5_subprocess_failure_witness :
    (clone_repo "https://example.com/r.git" none none none none none
        ⟨true, true, "/d", "/t", "/tmp", "ab",
          .calledProcessError "  boom \n" "exc text", true⟩).1
      = .ok ⟨false, "git clone failed: "
          ++ (if "  boom \n" == "" then "exc text" else pyStrip "  boom \n"),
          none⟩ :=
  C5_subprocess_failure "https://example.com/r.git" none none none none none
    ⟨true, true, "/d", "/t", "/tmp", "ab",
      .calledProcessError "  boom \n" "exc text", true⟩
    "  boom \n" "exc text" rfl rfl rfl

/-- C6: when no token is supplied, the credential branch is skipped
entirely — no credential file is written, no username or credential line
is produced, no unlink is attempted, and the subprocess environment is
not extended beyond the copy of `os.environ`. -/
theorem C6_no_token_no_credentials (repo_url : String) (branch : Option String)
    (depth : Option Int) (dest_dir token username_hint : Option String)
    (env : CloneEnv) (htok : truthyStr token = false) :
    (clone_repo repo_url branch depth dest_dir token username_hint env).2.credFilesCreated = 0
    ∧ (clone_repo repo_url branch depth dest_dir token username_hint env).2.credUsername = none
    ∧ (clone_repo repo_url branch depth dest_dir token username_hint env).2.credFileContent = none
    ∧ (clone_repo repo_url branch depth dest_dir token username_hint env).2.unlinkAttempted = false
    ∧ (clone_repo repo_url branch depth dest_dir token username_hint env).2.envExtra = [] := by
  unfold clone_repo
  by_cases hg : env.gitOnPath
  · by_cases hm : env.mkdirOk
    · simp [hg, hm, htok, emptyTrace]
    · simp [hg, hm, emptyTrace]
  · simp [hg, emptyTrace]

/-- C6 witness: the no-token frame condition at a concrete call. -/
theorem C6_no_token_no_credentials_witness :
    (clone_repo "https://example.com/r.git" none none none none none
        ⟨true, true, "/d", "/t", "/tmp", "ab", .exitOk, true⟩).2.credFilesCreated = 0
    ∧ (clone_repo "https://example.com/r.git" none none none none none
        ⟨true, true, "/d", "/t", "/tmp", "ab", .exitOk, true⟩).2.credUsername = none
    ∧ (clone_repo "https://example.com/r.git" none none none none none
        ⟨true, true, "/d", "/t", "/tmp", "ab", .exitOk, true⟩).2.credFileContent = none
    ∧ (clone_repo "https://example.com/r.git" none none none none none
        ⟨true, true, "/d", "/t", "/tmp", "ab", .exitOk, true⟩).2.unlinkAttempted = false
    ∧ (clone_repo "https://example.com/r.git" none none none none none
        ⟨true, true, "/d", "/t", "/tmp", "ab", .exitOk, true⟩).2.envExtra = [] :=
  C6_no_token_no_credentials "https://example.com/r.git" none none none none none
    ⟨true, true, "/d", "/t", "/tmp", "ab", .exitOk, true⟩ rfl

/-- C3 counterexample: with `git` on the path but the destination parent
directory creation failing, `clone_repo` raises the `OSError` to the
caller instead of returning a result dict, refuting the claim that every
failure path yields a structured result. -/
theorem C3_counterexample :
    (clone_repo "https://example.com/r.git" none none none none none
        ⟨true, false, "/d", "/t", "/tmp", "ab", .exitOk, true⟩).1
      = .error (.osError "could not create parent directory of /t/repo") := rfl

/-- C3 amended: `clone_repo` returns a structured result dict for the
missing-`git` check and for every subprocess outcome that is exit 0 or a
`CalledProcessError`, provided destination-directory creation succeeds;
other failures (directory creation errors, other subprocess exceptions)
propagate as exceptions. -/
theorem C3_structured_results (repo_url : String) (branch : Option String)
    (depth : Option Int) (dest_dir token username_hint : Option String)
    (env : CloneEnv)
    (h : env.gitOnPath = false
      ∨ (env.mkdirOk = true ∧ env.subproc.isOther = false)) :
    exceptIsOk
      (clone_repo repo_url branch depth dest_dir token username_hint env).1
      = true := by
  unfold clone_repo
  rcases h with hg | ⟨hm, hs⟩
  · simp [hg, exceptIsOk]
  · by_cases hg : env.gitOnPath
    · cases hsub : env.subproc with
      | exitOk => simp [hg, hm, hsub, exceptIsOk]
      | calledProcessError stderr excText => simp [hg, hm, hsub, exceptIsOk]
      | otherError msg => rw [hsub] at hs; simp [SubprocOutcome.isOther] at hs
    · simp [hg, exceptIsOk]

/-- C3 witness: a structured result at a concrete failing clone. -/
theorem C3_structured_results_witness :
    exceptIsOk (clone_repo "https://example.com/r.git" none none none none none
        ⟨true, true, "/d", "/t", "/tmp", "ab",
          .calledProcessError "" "exc", true⟩).1 = true :=
  C3_structured_results "https://example.com/r.git" none none none none none
    ⟨true, true, "/d", "/t", "/tmp", "ab", .calledProcessError "" "exc", true⟩
    (Or.inr ⟨rfl, rfl⟩)

/-- C4: with a token (and the call reaching the credential branch, i.e.
`git` present and destination-parent creation succeeding), exactly one
credential file is created, strictly before the subprocess starts; the
unlink runs on every exit path (all subprocess outcomes, including the
exception one, are covered by the universally quantified `env`); when the
unlink succeeds the file is gone afterwards; and a failing unlink is
swallowed — the returned value does not depend on it. -/
theorem C4_credential_lifecycle (repo_url : String) (branch : Option String)
    (depth : Option Int) (dest_dir token username_hint : Option String)
    (env : CloneEnv) (htok : truthyStr token = true)
    (hgit : env.gitOnPath = true) (hmk : env.mkdirOk = true) :
    (clone_repo repo_url branch depth dest_dir token username_hint env).2.credFilesCreated = 1
    ∧ (clone_repo repo_url branch depth dest_dir token username_hint env).2.events
        = [.credFileCreated, .subprocStarted, .credFileUnlinked]
    ∧ (clone_repo repo_url branch depth dest_dir token username_hint env).2.unlinkAttempted = true
    ∧ (env.unlinkOk = true →
        (clone_repo repo_url branch depth dest_dir token username_hint env).2.credFileExistsAfter = false)
    ∧ (∀ b, (clone_repo repo_url branch depth dest_dir token username_hint
          { env with unlinkOk := b }).1
        = (clone_repo repo_url branch depth dest_dir token username_hint env).1) := by
  unfold clone_repo
  refine ⟨by simp [hgit, hmk, htok], by simp [hgit, hmk, htok],
    by simp [hgit, hmk, htok], fun hu => by simp [hgit, hmk, htok, hu],
    fun b => by simp [hgit, hmk]⟩

/-- C4 witness: the credential lifecycle at a concrete failing clone. -/
theorem C4_credential_lifecycle_witness :
    (clone_repo "https://example.com/r.git" none none none (some "tok") none
        ⟨true, true, "/d", "/t", "/tmp", "ab", .otherError "boom", true⟩).2.credFilesCreated = 1
    ∧ (clone_repo "https://example.com/r.git" none none none (some "tok") none
        ⟨true, true, "/d", "/t", "/tmp", "ab", .otherError "boom", true⟩).2.events
        = [.credFileCreated, .subprocStarted, .credFileUnlinked]
    ∧ (clone_repo "https://example.com/r.git" none none none (some "tok") none
        ⟨true, true, "/d", "/t", "/tmp", "ab", .otherError "boom", true⟩).2.unlinkAttempted = true
    ∧ ((true : Bool) = true →
        (clone_repo "https://example.com/r.git" none none none (some "tok") none
        ⟨true, true, "/d", "/t", "/tmp", "ab", .otherError "boom", true⟩).2.credFileExistsAfter = false)
    ∧ (∀ b, (clone_repo "https://example.com/r.git" none none none (some "tok") none
          { (⟨true, true, "/d", "/t", "/tmp", "ab", .otherError "boom", true⟩ : CloneEnv)
            with unlinkOk := b }).1
        = (clone_repo "https://example.com/r.git" none none none (some "tok") none
        ⟨true, true, "/d", "/t", "/tmp", "ab", .otherError "boom", true⟩).1) :=
  C4_credential_lifecycle "https://example.com/r.git" none none none (some "tok")
    none ⟨true, true, "/d", "/t", "/tmp", "ab", .otherError "boom", true⟩
    rfl rfl rfl

/-- C2 counterexample: a non-GitHub host whose URL path mentions
`github.com`.  The credential username is `"x-access-token"` although the
URL's host component is `gitlab.example.com`, refuting the claim that the
username is `"x-access-token"` exactly when the host is `github.com`. -/
theorem C2_counterexample :
    (clone_repo "https://gitlab.example.com/mirror/github.com.git" none none none
        (some "tok") none
        ⟨true, true, "/d", "/t", "/tmp", "ab", .exitOk, true⟩).2.credUsername
      = some "x-access-token"
    ∧ netloc "https://gitlab.example.com/mirror/github.com.git" ≠ "github.com" :=
  ⟨rfl, by decide⟩

/-- C2 amended: with a token and no username hint (once the call reaches
the credential branch), the username is `"x-access-token"` exactly when
the substring `"github.com"` occurs anywhere in `repo_url`, and
`"oauth2"` otherwise. -/
theorem C2_username_rule (repo_url : String) (branch : Option String)
    (depth : Option Int) (dest_dir token username_hint : Option String)
    (env : CloneEnv) (htok : truthyStr token = true)
    (hhint : truthyStr username_hint = false)
    (hgit : env.gitOnPath = true) (hmk : env.mkdirOk = true) :
    (clone_repo repo_url branch depth dest_dir token username_hint env).2.credUsername
      = some (if strHasSub repo_url "github.com" then "x-access-token"
              else "oauth2") := by
  unfold clone_repo
  simp [hgit, hmk, htok, hhint]

/-- C2 witness: the username rule at a concrete GitHub URL. -/
theorem C2_username_rule_witness :
    (clone_repo "https://github.com/u/p.git" none none none (some "tok") none
        ⟨true, true, "/d", "/t", "/tmp", "ab", .exitOk, true⟩).2.credUsername
      = some (if strHasSub "https://github.com/u/p.git" "github.com"
              then "x-access-token" else "oauth2") :=
  C2_username_rule "https://github.com/u/p.git" none none none (some "tok") none
    ⟨true, true, "/d", "/t", "/tmp", "ab", .exitOk, true⟩ rfl rfl rfl rfl

/-- Whether the recorded clone command contains `needle` as a contiguous
block. -/
def cmdHasBlock (oc : Option (List String)) (needle : List String) : Bool :=
  match oc with
  | none => false
  | some c => listHasSub needle c

/-- C8: with a positive `depth = n` (and the call reaching command
construction), the constructed clone command contains the contiguous
block `--depth <n> --shallow-submodules --no-tags`. -/
theorem C8_shallow_options (repo_url : String) (branch : Option String)
    (dest_dir token username_hint : Option String) (env : CloneEnv) (n : Int)
    (hn : 0 < n) (hgit : env.gitOnPath = true) (hmk : env.mkdirOk = true) :
    cmdHasBlock
      (clone_repo repo_url branch (some n) dest_dir token username_hint env).2.cmd
      ["--depth", toString n, "--shallow-submodules", "--no-tags"] = true := by
  have hz : ((n == 0) : Bool) = false := by
    simp [hn.ne']
  unfold clone_repo
  simp only [hgit, hmk, Bool.not_true, Bool.false_eq_true, if_false, ite_false,
    Bool.not_false, if_true, cmdHasBlock, truthyInt, hz]
  rw [List.append_assoc]
  exact listHasSub_append _ _ _

/-- C8 witness: the shallow options at a concrete depth-3 call. -/
theorem C8_shallow_options_witness :
    cmdHasBlock
      (clone_repo "https://example.com/r.git" none (some 3) none none none
        ⟨true, true, "/d", "/t", "/tmp", "ab", .exitOk, true⟩).2.cmd
      ["--depth", toString (3 : Int), "--shallow-submodules", "--no-tags"]
      = true :=
  C8_shallow_options "https://example.com/r.git" none none none none
    ⟨true, true, "/d", "/t", "/tmp", "ab", .exitOk, true⟩ 3 (by decide) rfl rfl

/-- The header `scrape_url` prepends after truncation: title line and
source line when a `<title>` exists, else the source line alone. -/
def headerFor : Option String → String → String
  | some t, url => "# " ++ t ++ "\n\nSource: " ++ url ++ "\n\n"
  | none, url => "Source: " ++ url ++ "\n\n"

/-- A 26000-character URL. -/
def bigUrl : String := String.mk (List.replicate 26000 'a')

/-- C1 counterexample: a successful text response scraped from a
26000-character URL yields a returned string longer than `MAX_CHARS` plus
the truncation marker, because the `Source:` header is prepended after
the truncation step.  This refutes the claimed bound on the returned
string. -/
theorem C1_counterexample :
    (scrape_url bigUrl true (some "k")
        (.response true 200 "text/html" "" "" none)).output.length
      > MAX_CHARS + truncMarker.length := by
  have h : (scrape_url bigUrl true (some "k")
      (.response true 200 "text/html" "" "" none)).output
      = "Source: " ++ bigUrl ++ "\n\n" ++ truncateText (cleanLines "") := rfl
  have htc : truncateText (cleanLines "") = "" := rfl
  rw [h, htc]
  have hb : bigUrl.length = 26000 := by
    show (List.replicate 26000 'a').length = 26000
    exact List.length_replicate 26000 'a'
  have h8 : ("Source: " : String).length = 8 := rfl
  have h2 : ("\n\n" : String).length = 2 := rfl
  have h0 : ("" : String).length = 0 := rfl
  have hm : truncMarker.length = 25 := rfl
  simp only [String.length_append, hb, h8, h2, h0, hm, MAX_CHARS, gt_iff_lt]
  omega

/-- C1 amended: for every scrape that returns page text (a 2xx response
with a text or json content type), the returned string is at most the
length of the prepended header (title and/or source line) plus
`MAX_CHARS` plus the truncation marker length; the 25,000-character cap
applies to the cleaned body before the header is prepended. -/
theorem C1_length_bound (url : String) (renderJs : Bool) (apiKey : Option String)
    (status : Nat) (contentType body soupText : String)
    (soupTitle : Option String) (hkey : truthyStr apiKey = true)
    (hct : (strStarts contentType "text" || strHasSub contentType "json") = true) :
    (scrape_url url renderJs apiKey
        (.response true status contentType body soupText soupTitle)).output.length
      ≤ (headerFor soupTitle url).length + MAX_CHARS + truncMarker.length := by
  unfold scrape_url
  simp only [hkey, Bool.not_true, Bool.false_eq_true, if_false, hct, if_true,
    Bool.not_false, ite_true, ite_false]
  cases soupTitle with
  | some t =>
      show (("# " ++ t ++ "\n\nSource: " ++ url ++ "\n\n")
          ++ truncateText (cleanLines soupText)).length ≤ _
      rw [String.length_append]
      have := truncateText_length_le (cleanLines soupText)
      have hh : (headerFor (some t) url) = "# " ++ t ++ "\n\nSource: " ++ url ++ "\n\n" := rfl
      rw [hh]
      omega
  | none =>
      show (("Source: " ++ url ++ "\n\n")
          ++ truncateText (cleanLines soupText)).length ≤ _
      rw [String.length_append]
      have := truncateText_length_le (cleanLines soupText)
      have hh : (headerFor none url) = "Source: " ++ url ++ "\n\n" := rfl
      rw [hh]
      omega

/-- C1 witness: the amended bound at a concrete scrape. -/
theorem C1_length_bound_witness :
    (scrape_url "http://x" true (some "k")
        (.response true 200 "text/html" "b" "hi\nthere" (some "T"))).output.length
      ≤ (headerFor (some "T") "http://x").length + MAX_CHARS
          + truncMarker.length :=
  C1_length_bound "http://x" true (some "k") 200 "text/html" "b" "hi\nthere"
    (some "T") rfl rfl

/-- C9: for every scrape that reaches text processing, the returned
string is exactly the title header `# <title>`, a blank line,
`Source: <url>`, a blank line, then the cleaned (and possibly truncated)
text when a `<title>` exists; and `Source: <url>`, a blank line, then the
cleaned text otherwise. -/
theorem C9_header_shape (url : String) (renderJs : Bool) (apiKey : Option String)
    (status : Nat) (contentType body soupText : String)
    (soupTitle : Option String) (hkey : truthyStr apiKey = true)
    (hct : (strStarts contentType "text" || strHasSub contentType "json") = true) :
    (∀ t, soupTitle = some t →
      (scrape_url url renderJs apiKey
          (.response true status contentType body soupText soupTitle)).output
        = "# " ++ t ++ "\n\nSource: " ++ url ++ "\n\n"
            ++ truncateText (cleanLines soupText))
    ∧ (soupTitle = none →
      (scrape_url url renderJs apiKey
          (.response true status contentType body soupText soupTitle)).output
        = "Source: " ++ url ++ "\n\n" ++ truncateText (cleanLines soupText)) := by
  unfold scrape_url
  simp only [hkey, Bool.not_true, Bool.false_eq_true, if_false, hct, if_true,
    Bool.not_false, ite_true, ite_false]
  constructor
  · intro t ht
    subst ht
    rfl
  · intro ht
    subst ht
    rfl

/-- C9 witness: the header shape at a concrete scrape with a title. -/
theorem C9_header_shape_witness :
    (∀ t, (some "Example" : Option String) = some t →
      (scrape_url "http://x" true (some "k")
          (.response true 200 "text/html" "b" "hi" (some "Example"))).output
        = "# " ++ t ++ "\n\nSource: " ++ "http://x" ++ "\n\n"
            ++ truncateText (cleanLines "hi"))
    ∧ ((some "Example" : Option String) = none →
      (scrape_url "http://x" true (some "k")
          (.response true 200 "text/html" "b" "hi" (some "Example"))).output
        = "Source: " ++ "http://x" ++ "\n\n" ++ truncateText (cleanLines "hi")) :=
  C9_header_shape "http://x" true (some "k") 200 "text/html" "b" "hi"
    (some "Example") rfl rfl

end AdkTools
